import Mathlib

/-!
Shallow embedding of the Radix menu primitives (packages/react/menu/src/Menu.tsx,
the canonical nested-capable variant, and the near-duplicate flat variant in
src/unnamed/part_000).  Pure functions model the event handlers; React state is
passed explicitly.  Definitions are translated from the source; components of the
repository that are not under src/ (DismissableLayer, FocusScope, RovingFocusGroup,
useMenuTypeahead) are modelled from the spec and carry a doc comment saying so.
-/

/- ---------------------------------------------------------------------------
   Item-select event model.
   MenuItem.handleSelect (Menu.tsx lines 575-584) dispatches a bubbling,
   cancelable `menu.itemSelect` event on the item element; the item's own
   `onSelect` listener (lines 586-593) runs at the target, then — unless
   propagation was stopped — the event reaches the document, where EVERY
   mounted Menu has registered a close listener (lines 72-80) that calls
   `onOpenChange(false)` unless the event's default was prevented.
--------------------------------------------------------------------------- -/

/-- A dispatched `menu.itemSelect` event: its cancellation state. -/
structure ItemSelectEvent where
  defaultPrevented : Bool
  propagationStopped : Bool
deriving DecidableEq

/-- Event.preventDefault. -/
def preventDefault (e : ItemSelectEvent) : ItemSelectEvent :=
  { e with defaultPrevented := true }

/-- Event.stopPropagation. -/
def stopPropagation (e : ItemSelectEvent) : ItemSelectEvent :=
  { e with propagationStopped := true }

/-- One mounted Menu instance in the document.  The source's `open` boolean is
`isOpen` here (`open` is a Lean keyword).  `ancestorOfItem` records whether this
menu is an ancestor level of the selected item; the document-level close
listener never consults it. -/
structure MountedMenu where
  isOpen : Bool
  ancestorOfItem : Bool
deriving DecidableEq

/-- The document-level listener each mounted Menu registers (Menu.tsx 72-80):
`if (event.defaultPrevented) return; handleOpenChange(false)`. -/
def handleMenuClose (e : ItemSelectEvent) (m : MountedMenu) : MountedMenu :=
  if e.defaultPrevented then m else { m with isOpen := false }

/-- Dispatch of the item-select event (Menu.tsx 575-584): the item's own
`onSelect` listener runs first at the target; if it stopped propagation the
event never reaches the document listeners, otherwise every mounted Menu's
close listener runs on it. -/
def dispatchItemSelect (onSelect : ItemSelectEvent → ItemSelectEvent)
    (menus : List MountedMenu) : List MountedMenu :=
  let e := onSelect { defaultPrevented := false, propagationStopped := false }
  if e.propagationStopped then menus else menus.map (handleMenuClose e)

/-- MenuItem.handleSelect (Menu.tsx 575-584): disabled items dispatch nothing. -/
def handleSelect (disabled : Bool) (onSelect : ItemSelectEvent → ItemSelectEvent)
    (menus : List MountedMenu) : List MountedMenu :=
  if disabled then menus else dispatchItemSelect onSelect menus

/-- A plain item with no `onSelect` prop: the event is left untouched. -/
def defaultOnSelect : ItemSelectEvent → ItemSelectEvent := id

/-- MenuNestedTrigger's built-in `onSelect` (Menu.tsx 723-726):
`event.preventDefault(); event.stopPropagation()`. -/
def nestedTriggerOnSelect (e : ItemSelectEvent) : ItemSelectEvent :=
  stopPropagation (preventDefault e)

/-- MenuItem keydown selection (Menu.tsx 606-612): Enter or Space on an enabled
item calls handleSelect. -/
def menuItemKeyDown (disabled : Bool) (key : String)
    (onSelect : ItemSelectEvent → ItemSelectEvent)
    (menus : List MountedMenu) : List MountedMenu :=
  if !disabled && (key == "Enter" || key == " ") then
    handleSelect disabled onSelect menus
  else menus

/-- MenuItem mouse-up selection (Menu.tsx 614): calls handleSelect. -/
def menuItemMouseUp (disabled : Bool) (onSelect : ItemSelectEvent → ItemSelectEvent)
    (menus : List MountedMenu) : List MountedMenu :=
  handleSelect disabled onSelect menus

/- ---------------------------------------------------------------------------
   ArrowLeft inside a submenu.
   MenuSubMenuContent (part_000 lines 740-747): on ArrowLeft the submenu
   content's keydown handler stops propagation, calls its own level's
   `onOpenChange(false)` and focuses its own trigger.  The handler is attached
   per submenu level; React bubbles a keydown from the level it happened in up
   through the ancestor contents unless propagation is stopped.
--------------------------------------------------------------------------- -/

/-- Where logical focus sits in a stack of menu levels. `trigger i` is the
trigger that owns level `i` (for `i ≥ 1` it lives inside content `i - 1`);
`trigger 0` is the root trigger. -/
inductive FocusTarget where
  | content : Nat → FocusTarget
  | trigger : Nat → FocusTarget
deriving DecidableEq

/-- Open flags for a stack of menu levels (index 0 is the root level) plus the
current focus location. -/
structure NavState where
  levels : List Bool
  focus : FocusTarget
deriving DecidableEq

/-- The ArrowLeft branch of the submenu content keydown handler at level `i`
(part_000 740-747): stop propagation (second component `true`), close this
level only, focus this level's own trigger. -/
def subContentArrowLeft (i : Nat) (s : NavState) : NavState × Bool :=
  ({ levels := s.levels.set i false, focus := FocusTarget.trigger i }, true)

/-- React keydown bubbling over the handlers on the bubble path: each handler
runs in order until one stops propagation. -/
def bubbleDispatch : List Nat → NavState → NavState
  | [], s => s
  | i :: rest, s =>
    let r := subContentArrowLeft i s
    if r.snd then r.fst else bubbleDispatch rest r.fst

/-- Bubble path for a keydown inside content `d`: the submenu contents
`d, d - 1, ..., 1` (the root content has no ArrowLeft handler — ArrowLeft is
not in ALL_KEYS, Menu.tsx 29-31). -/
def bubblePath (d : Nat) : List Nat :=
  (List.range d).map (fun k => d - k)

/-- Pressing ArrowLeft while focus is inside submenu content `d`. -/
def pressArrowLeft (s : NavState) (d : Nat) : NavState :=
  bubbleDispatch (bubblePath d) s

/- ---------------------------------------------------------------------------
   Outside pointer-down classification and dismissal.
   MenuContentImpl's onPointerDownOutside (Menu.tsx 373-387):
     isLeftClick  := event.button === 0 && event.ctrlKey === false
     isPermitted  := !disableOutsidePointerEvents && isLeftClick
     setIsPermittedPointerDownOutsideEvent(isPermitted)
     if (event.defaultPrevented) setIsPermittedPointerDownOutsideEvent(false)
   Only `button` and `ctrlKey` are consulted; the other modifier fields exist
   on the DOM MouseEvent but are never read by the source.
--------------------------------------------------------------------------- -/

/-- A pointer-down outside the content, with the DOM MouseEvent fields the
classification could consult, its cancellation state, and whether its target
lies inside this submenu's own trigger. -/
structure PointerDownOutsideEvent where
  button : Nat
  ctrlKey : Bool
  shiftKey : Bool
  altKey : Bool
  metaKey : Bool
  defaultPrevented : Bool
  targetInsideTrigger : Bool
deriving DecidableEq

/-- The permitted flag MenuContentImpl records (Menu.tsx 373-387): net effect
of the two setState calls. -/
def pointerDownOutsideFlag (disableOutsidePointerEvents : Bool)
    (e : PointerDownOutsideEvent) : Bool :=
  let isLeftClick := e.button == 0 && e.ctrlKey == false
  let isPermitted := !disableOutsidePointerEvents && isLeftClick
  if e.defaultPrevented then false else isPermitted

/-- The classification as the claim words it: permitted iff primary button with
NO held modifier key (ctrl, shift, alt or meta) and outside pointer events not
disabled.  Stated from the spec's words, to be compared with
`pointerDownOutsideFlag`, which is the source's classification. -/
def isPermittedPerClaim (disableOutsidePointerEvents : Bool)
    (e : PointerDownOutsideEvent) : Bool :=
  e.button == 0 && !e.ctrlKey && !e.shiftKey && !e.altKey && !e.metaKey &&
    !disableOutsidePointerEvents

/-- Modelled from the spec: DismissableLayer (not under src/) closes the owning
menu on an outside pointer-down unless a handler prevented the event
(§4.6: "…then close the menu"; §2 item 6).  Returns the new open flag. -/
def dismissAfterPointerDownOutside (e : PointerDownOutsideEvent) (isOpen : Bool) : Bool :=
  if e.defaultPrevented then isOpen else false

/-- A root-level content receiving an outside pointer-down: the impl handler
records the permitted flag, then the layer dismisses unless the event was
prevented.  Result: (new open flag, recorded permitted flag). -/
def rootPointerDownOutside (disableOutsidePointerEvents : Bool)
    (e : PointerDownOutsideEvent) (isOpen : Bool) : Bool × Bool :=
  (dismissAfterPointerDownOutside e isOpen,
   pointerDownOutsideFlag disableOutsidePointerEvents e)

/-- MenuNestedContent's own onPointerDownOutside (Menu.tsx 525-529; part_000
755-761): if the target is inside this submenu's originating trigger, prevent
the event. -/
def nestedTriggerGuard (e : PointerDownOutsideEvent) : PointerDownOutsideEvent :=
  if e.targetInsideTrigger then { e with defaultPrevented := true } else e

/-- A nested content receiving an outside pointer-down: the nested guard runs
first, then the impl flag handler (nested content always passes
`disableOutsidePointerEvents = false`, Menu.tsx 501), then the layer dismisses
unless prevented.  Result: (new open flag, recorded permitted flag). -/
def nestedPointerDownOutside (e : PointerDownOutsideEvent) (isOpen : Bool) : Bool × Bool :=
  let e1 := nestedTriggerGuard e
  (dismissAfterPointerDownOutside e1 isOpen, pointerDownOutsideFlag false e1)

/- ---------------------------------------------------------------------------
   Close-time focus restoration (Focus Scope Guard).
   MenuContentImpl's onUnmountAutoFocus (Menu.tsx 360-367) prevents the
   unmount auto-focus exactly when the permitted flag is set.  The flag is
   React state initialised to false (Menu.tsx 326-329) and is destroyed with
   the content on unmount, so after a close it reads false again.
--------------------------------------------------------------------------- -/

/-- onUnmountAutoFocus (Menu.tsx 360-367): the close auto-focus event is
prevented iff the permitted flag is set. -/
def unmountAutoFocusPrevented (isPermittedPointerDownOutsideEvent : Bool) : Bool :=
  isPermittedPointerDownOutsideEvent

/-- Modelled from the spec: FocusScope (not under src/) restores focus to the
owning trigger on close unless its unmount auto-focus event was prevented
(§4.7, §6 focus-trap primitive). -/
def focusScopeRestore (prevented : Bool) : Bool := !prevented

/-- Observable outcome of closing a content level. -/
structure CloseOutcome where
  focusRestoredToTrigger : Bool
  flagAfterClose : Bool
deriving DecidableEq

/-- Closing the content while the permitted flag holds `flag`: the unmount
auto-focus handler reads the flag once, FocusScope restores focus unless that
read prevented it, and the unmounted state re-initialises the flag to false
(Menu.tsx 326-329). -/
def closeMenuContent (flag : Bool) : CloseOutcome :=
  { focusRestoredToTrigger := focusScopeRestore (unmountAutoFocusPrevented flag)
  , flagAfterClose := false }

/- ---------------------------------------------------------------------------
   Submenu trigger open-intent state machine.
   MenuNestedTrigger (Menu.tsx 712-764) keeps `mouseInteracting` state; the
   owning MenuNested (Menu.tsx 117-151) keeps `focusFirstItem` and flips the
   menu open via `onMenuOpen`.
--------------------------------------------------------------------------- -/

/-- Per-trigger state: the source's `mouseInteracting` flag (the spec's
`pointerEngaged`), the owning menu's `open` boolean (`isOpen` here) and the
owning MenuNested's `focusFirstItem` flag. -/
structure NestedTriggerState where
  mouseInteracting : Bool
  isOpen : Bool
  focusFirstItem : Bool
deriving DecidableEq

/-- MenuNested.onMenuOpen (Menu.tsx 135-146): open the menu and record whether
the submenu should pre-focus its first item — true exactly when the triggering
event was a keydown. -/
def onMenuOpen (eventType : String) (s : NestedTriggerState) : NestedTriggerState :=
  { s with isOpen := true, focusFirstItem := eventType == "keydown" }

/-- MenuNestedTrigger onMouseMove (Menu.tsx 731-738): only when enabled, not
already engaged and not already open does the move engage the trigger (and
request focus on it); every other move is a no-op. -/
def triggerOnMouseMove (disabled : Bool) (s : NestedTriggerState) : NestedTriggerState :=
  if !disabled && !s.mouseInteracting && !s.isOpen then
    { s with mouseInteracting := true }
  else s

/-- MenuNestedTrigger onMouseLeave (Menu.tsx 739-743): disengage, nothing else. -/
def triggerOnMouseLeave (s : NestedTriggerState) : NestedTriggerState :=
  { s with mouseInteracting := false }

/-- MenuNestedTrigger onFocus (Menu.tsx 749-753): if still pointer-engaged,
open via onMenuOpen with a "focus" event.  Note the handler does NOT touch
`mouseInteracting`. -/
def triggerOnFocus (s : NestedTriggerState) : NestedTriggerState :=
  if s.mouseInteracting then onMenuOpen "focus" s else s

/-- MenuNestedTrigger onBlur (Menu.tsx 754): disengage. -/
def triggerOnBlur (s : NestedTriggerState) : NestedTriggerState :=
  { s with mouseInteracting := false }

/-- MenuNestedTrigger onKeyDown (Menu.tsx 755-760): always disengage first;
Enter, Space or ArrowRight then opens via onMenuOpen with a "keydown" event. -/
def triggerOnKeyDown (key : String) (s : NestedTriggerState) : NestedTriggerState :=
  let s1 := { s with mouseInteracting := false }
  if key == "Enter" || key == " " || key == "ArrowRight" then
    onMenuOpen "keydown" s1
  else s1

/- ---------------------------------------------------------------------------
   Registered items, entry focus, typeahead.
--------------------------------------------------------------------------- -/

/-- One registered menu item: resolved text value and disabled flag
(Menu.tsx 161, 556-573). -/
structure RegisteredItem where
  textValue : String
  disabled : Bool
deriving DecidableEq

/-- MenuNestedContent onEntryFocus (Menu.tsx 512-516): the entry-focus event is
prevented exactly when `focusFirstItem` is not set. -/
def nestedEntryFocusPrevented (focusFirstItem : Bool) : Bool := !focusFirstItem

/-- Modelled from the spec: RovingFocusGroup (not under src/) reacts to an
unprevented entry-focus event by focusing the first enabled item; when the
event is prevented the focus stop stays null (§4.3, §4.4). -/
def entryFocusStop (prevented : Bool) (items : List RegisteredItem) :
    Option RegisteredItem :=
  if prevented then none else (items.filter (fun i => !i.disabled)).head?

/- ---------------------------------------------------------------------------
   data-state attributes (Menu.tsx 947-953) and transition sequences.
--------------------------------------------------------------------------- -/

/-- getOpenState (Menu.tsx 947-949). -/
def getOpenState (isOpen : Bool) : String :=
  if isOpen then "open" else "closed"

/-- getCheckedState (Menu.tsx 951-953). -/
def getCheckedState (checked : Bool) : String :=
  if checked then "checked" else "unchecked"

/-- MenuRadioItem's derived checked boolean (Menu.tsx 864):
`checked = value === context.value`. -/
def radioChecked (value ctxValue : String) : Bool := value == ctxValue

/-- A transition sequence: each event supplies the next value of the open
boolean (controlled or uncontrolled `onOpenChange` both land here); the state
after the sequence is the last value supplied. -/
def runOpenSequence (init : Bool) (events : List Bool) : Bool :=
  events.foldl (fun _ v => v) init

/- ---------------------------------------------------------------------------
   Typeahead matcher.
   `useMenuTypeahead` is imported (Menu.tsx 21) but its file is not under
   src/, so the matcher is modelled from the spec, §4.2.
--------------------------------------------------------------------------- -/

/-- Modelled from the spec: the rolling typeahead window, "fixed constant,
~1s" (§3 TypeaheadBuffer). -/
def typeaheadWindowMs : Nat := 1000

/-- Modelled from the spec: TypeaheadBuffer plus the current focus stop the
matcher scans from (§3): rolling character buffer, time of last input, and the
index of the item currently holding the roving-focus stop (none initially). -/
structure TypeaheadState where
  buffer : String
  lastInputAt : Nat
  stop : Option Nat
deriving DecidableEq

/-- ASCII-lowercased character code, for case-insensitive matching. -/
def lowerCode (c : Char) : Nat :=
  let n := c.toNat
  if 65 ≤ n && n ≤ 90 then n + 32 else n

/-- Case-insensitive "first list is a leading segment of the second". -/
def charsMatchCI : List Char → List Char → Bool
  | [], _ => true
  | _ :: _, [] => false
  | c :: cs, d :: ds => (lowerCode c == lowerCode d) && charsMatchCI cs ds

/-- Case-insensitive test that `search` starts `text`. -/
def startsWithCI (search text : String) : Bool :=
  charsMatchCI search.data text.data

/-- Modelled from the spec: scan order over `n` items "starting after the
currently focused item, wrapping around to the start" (§4.2); with no stop the
scan runs from the beginning. -/
def scanOrder (n : Nat) (stop : Option Nat) : List Nat :=
  match stop with
  | none => List.range n
  | some i => (List.range n).map (fun k => (i + 1 + k) % n)

/-- Modelled from the spec: the first enabled item, in scan order, whose
textValue the search case-insensitively starts (§4.2; "disabled items are
never candidates but do not break scan order"). -/
def findTypeaheadMatch (items : List RegisteredItem) (stop : Option Nat)
    (search : String) : Option Nat :=
  (scanOrder items.length stop).find? (fun j =>
    match items[j]? with
    | some it => !it.disabled && startsWithCI search it.textValue
    | none => false)

/-- Modelled from the spec: `onCharacter(char, items)` of the Typeahead Matcher
(§4.2) — useMenuTypeahead is not under src/.  Non-printable input is ignored;
the buffer is reset first when the window elapsed, then the character is
appended; the full buffer is matched, and if it matches nothing the newly
typed character alone is retried; on a match the resolved item becomes the
new focus stop (§2: the matcher resolves a target item and focus moves to it). -/
def onCharacter (items : List RegisteredItem) (now : Nat) (c : Char)
    (s : TypeaheadState) : TypeaheadState × Option Nat :=
  if c.toNat < 32 then (s, none) else
  let base := if now - s.lastInputAt ≥ typeaheadWindowMs then "" else s.buffer
  let buffer := base.push c
  let firstTry := findTypeaheadMatch items s.stop buffer
  let m :=
    match firstTry with
    | some j => some j
    | none => findTypeaheadMatch items s.stop (String.singleton c)
  let stop1 :=
    match m with
    | some j => some j
    | none => s.stop
  ({ buffer := buffer, lastInputAt := now, stop := stop1 }, m)

/-- Text value of a resolved index. -/
def resolvedText (items : List RegisteredItem) (r : Option Nat) : Option String :=
  r.bind (fun j => (items[j]?).map (fun it => it.textValue))

/-- The claim's item list. -/
def appleItems : List RegisteredItem :=
  [⟨"Apple", false⟩, ⟨"Apricot", false⟩, ⟨"Banana", false⟩]

/-- Fresh matcher state: empty buffer, no stop. -/
def typeahead0 : TypeaheadState :=
  { buffer := "", lastInputAt := 0, stop := none }

/-- Run a timed character sequence through the matcher from the fresh state,
returning the final state and the last resolution. -/
def typeaheadRun (items : List RegisteredItem) (inputs : List (Nat × Char)) :
    TypeaheadState × Option Nat :=
  inputs.foldl (fun acc inp => onCharacter items inp.fst inp.snd acc.fst)
    (typeahead0, none)

/- ---------------------------------------------------------------------------
   Theorems.
--------------------------------------------------------------------------- -/

/-- C1: selecting an enabled, non-submenu-trigger item (Enter, Space, or
mouse-up on the item) with no handler preventing the default transitions every
mounted menu level to closed (the whole stack closes); selecting a
submenu-trigger item, whose built-in select handler prevents default and stops
propagation, leaves every level of the stack unchanged (open levels stay open). -/
theorem select_closes_stack_nested_trigger_suppresses
    (menus : List MountedMenu) (key : String) (hkey : key = "Enter" ∨ key = " ") :
    (∀ m ∈ menuItemKeyDown false key defaultOnSelect menus, m.isOpen = false) ∧
    (∀ m ∈ menuItemMouseUp false defaultOnSelect menus, m.isOpen = false) ∧
    menuItemKeyDown false key nestedTriggerOnSelect menus = menus ∧
    menuItemMouseUp false nestedTriggerOnSelect menus = menus := by
  have hk : (key == "Enter" || key == " ") = true := by
    rcases hkey with h | h <;> simp [h]
  refine ⟨?_, ?_, ?_, ?_⟩
  · intro m hm
    simp only [menuItemKeyDown, hk, Bool.not_false, Bool.true_and, if_pos,
      handleSelect, dispatchItemSelect, defaultOnSelect, id_eq, if_neg,
      Bool.false_eq_true, not_false_iff, List.mem_map] at hm
    obtain ⟨a, _, rfl⟩ := hm
    simp [handleMenuClose]
  · intro m hm
    simp only [menuItemMouseUp, handleSelect, dispatchItemSelect, defaultOnSelect,
      id_eq, if_neg, Bool.false_eq_true, not_false_iff, List.mem_map] at hm
    obtain ⟨a, _, rfl⟩ := hm
    simp [handleMenuClose]
  · simp [menuItemKeyDown, hk, handleSelect, dispatchItemSelect,
      nestedTriggerOnSelect, stopPropagation, preventDefault]
  · simp [menuItemMouseUp, handleSelect, dispatchItemSelect,
      nestedTriggerOnSelect, stopPropagation, preventDefault]

/-- C1 witness: a two-level stack (an ancestor and a non-ancestor menu) at a
concrete Enter-key selection. -/
theorem select_closes_stack_nested_trigger_suppresses_witness :
    (∀ m ∈ menuItemKeyDown false "Enter" defaultOnSelect
        [⟨true, true⟩, ⟨true, false⟩], m.isOpen = false) ∧
    menuItemKeyDown false "Enter" nestedTriggerOnSelect
        [⟨true, true⟩, ⟨true, false⟩] = [⟨true, true⟩, ⟨true, false⟩] := by
  have h := select_closes_stack_nested_trigger_suppresses
    [⟨true, true⟩, ⟨true, false⟩] "Enter" (Or.inl rfl)
  exact ⟨h.1, h.2.2.1⟩

/-- The bubble path for a keydown in content `e + 1` starts with `e + 1` itself. -/
theorem bubblePath_succ (e : Nat) : bubblePath (e + 1) = (e + 1) :: bubblePath e := by
  simp [bubblePath, List.range_succ_eq_map, List.map_map, Function.comp_def,
    Nat.succ_sub_succ]

/-- Setting one index leaves every other index of a list unchanged. -/
theorem navGet_set_ne {α : Type} (l : List α) (a : α) :
    ∀ i j : Nat, i ≠ j → (l.set i a)[j]? = l[j]? := by
  induction l with
  | nil => intro i j _; simp
  | cons b t ih =>
    intro i j hij
    cases i with
    | zero =>
      cases j with
      | zero => exact absurd rfl hij
      | succ j => simp
    | succ i =>
      cases j with
      | zero => simp
      | succ j => simpa using ih i j (fun h => hij (by rw [h]))

/-- C2: pressing ArrowLeft inside the submenu content at index `e + 1` (depth
`e + 2`; depth 2 is index 1) closes only that level — its open flag becomes
false, every other level's flag is unchanged (in particular the parent level
stays open) — propagation stops at that level, and focus moves to that
submenu's own trigger, which is not the root trigger. -/
theorem arrowLeft_closes_single_level (s : NavState) (e : Nat)
    (hlen : e + 1 < s.levels.length) :
    pressArrowLeft s (e + 1) =
      { levels := s.levels.set (e + 1) false, focus := FocusTarget.trigger (e + 1) } ∧
    (pressArrowLeft s (e + 1)).levels[e + 1]? = some false ∧
    (∀ j, j ≠ e + 1 → (pressArrowLeft s (e + 1)).levels[j]? = s.levels[j]?) ∧
    (pressArrowLeft s (e + 1)).focus = FocusTarget.trigger (e + 1) ∧
    (pressArrowLeft s (e + 1)).focus ≠ FocusTarget.trigger 0 := by
  have hpress : pressArrowLeft s (e + 1) =
      { levels := s.levels.set (e + 1) false, focus := FocusTarget.trigger (e + 1) } := by
    simp [pressArrowLeft, bubblePath_succ, bubbleDispatch, subContentArrowLeft]
  refine ⟨hpress, ?_, ?_, ?_, ?_⟩
  · rw [hpress]
    simp [List.getElem?_set_self, hlen]
  · intro j hj
    rw [hpress]
    exact navGet_set_ne s.levels false (e + 1) j (fun h => hj h.symm)
  · rw [hpress]
  · rw [hpress]
    simp

/-- C2 witness: a depth-2 stack, both levels open, ArrowLeft in the depth-2
submenu (index 1): only level 1 closes, the depth-1 level stays open, focus is
on the depth-2 submenu's own trigger. -/
theorem arrowLeft_closes_single_level_witness :
    pressArrowLeft ⟨[true, true], FocusTarget.content 1⟩ 1 =
      { levels := [true, false], focus := FocusTarget.trigger 1 } ∧
    (pressArrowLeft ⟨[true, true], FocusTarget.content 1⟩ 1).levels[0]? = some true := by
  have h := arrowLeft_closes_single_level ⟨[true, true], FocusTarget.content 1⟩ 0
    (by decide)
  refine ⟨by rw [h.1]; rfl, ?_⟩
  have h0 := h.2.2.1 0 (by decide)
  simpa using h0

/-- A primary-button outside pointer-down with Shift held (Ctrl not held),
outside pointer events enabled, nothing prevented. -/
def shiftLeftClick : PointerDownOutsideEvent :=
  { button := 0, ctrlKey := false, shiftKey := true, altKey := false
  , metaKey := false, defaultPrevented := false, targetInsideTrigger := false }

/-- C3 counterexample: the claim's classification — permitted iff primary
button with NO held modifier key — is false on the code.  At a primary-button
pointer-down with Shift held the source records the event as permitted
(it only consults `ctrlKey`, Menu.tsx 376-378), while the claim's
classification says it is not permitted. -/
theorem permitted_iff_no_modifier_counterexample :
    pointerDownOutsideFlag false shiftLeftClick = true ∧
    isPermittedPerClaim false shiftLeftClick = false := by
  decide

/-- C3 amended: while a menu is open, an outside pointer-down with no handler
preventing it is classified as permitted pass-through iff it is a
primary-button click with the Control key not held (the only modifier the code
consults; Shift, Alt and Meta are ignored) and outside pointer events are not
disabled for this content; this classification is recorded as the permitted
flag for the Focus Scope Guard and the menu then closes. -/
theorem permitted_iff_primary_no_ctrl (d : Bool) (e : PointerDownOutsideEvent)
    (h : e.defaultPrevented = false) :
    (rootPointerDownOutside d e true).snd = (!d && (e.button == 0 && e.ctrlKey == false)) ∧
    (rootPointerDownOutside d e true).fst = false := by
  constructor
  · simp [rootPointerDownOutside, pointerDownOutsideFlag, h]
  · simp [rootPointerDownOutside, dismissAfterPointerDownOutside, h]

/-- C3 witness: a plain unmodified primary-button outside click with outside
pointer events enabled is recorded as permitted and the menu closes. -/
theorem permitted_iff_primary_no_ctrl_witness :
    (rootPointerDownOutside false
      ⟨0, false, false, false, false, false, false⟩ true).snd = true ∧
    (rootPointerDownOutside false
      ⟨0, false, false, false, false, false, false⟩ true).fst = false := by
  have h := permitted_iff_primary_no_ctrl false
    ⟨0, false, false, false, false, false, false⟩ rfl
  exact ⟨by rw [h.1]; decide, h.2⟩

/-- The trigger state reached by a qualifying pointer move from the idle,
closed state. -/
def engagedAfterMove : NestedTriggerState :=
  triggerOnMouseMove false ⟨false, false, false⟩

/-- C4 counterexample: the claim's final conjunct — "that opening transition
also clears pointerEngaged" — is false on the code.  After a qualifying
pointer move engages the trigger, the focus event fires the open transition
(isOpen becomes true) yet `mouseInteracting` is still true: the onFocus
handler (Menu.tsx 749-753) never writes `mouseInteracting`. -/
theorem open_intent_clears_engaged_counterexample :
    (triggerOnFocus engagedAfterMove).isOpen = true ∧
    (triggerOnFocus engagedAfterMove).mouseInteracting = true := by
  decide

/-- C4 amended: for every submenu trigger's open-intent state machine, only
the first qualifying pointer move per engagement (enabled, not-yet-open, not
already engaged) sets `mouseInteracting`; pointer-leave resets it without
opening; the engaged-to-opening transition fires when the trigger receives
focus while still pointer-engaged (focus alone, unengaged, does nothing); but
the opening transition does NOT itself clear `mouseInteracting` — the focus
handler leaves it untouched, and it is cleared only by a later blur,
pointer-leave or keydown. -/
theorem open_intent_state_machine (s : NestedTriggerState) :
    (s.mouseInteracting = false → s.isOpen = false →
      triggerOnMouseMove false s = { s with mouseInteracting := true }) ∧
    (s.mouseInteracting = true → triggerOnMouseMove false s = s) ∧
    (s.isOpen = true → triggerOnMouseMove false s = s) ∧
    (triggerOnMouseMove true s = s) ∧
    ((triggerOnMouseLeave s).mouseInteracting = false ∧
      (triggerOnMouseLeave s).isOpen = s.isOpen) ∧
    (s.mouseInteracting = true → (triggerOnFocus s).isOpen = true) ∧
    (s.mouseInteracting = false → triggerOnFocus s = s) ∧
    ((triggerOnFocus s).mouseInteracting = s.mouseInteracting) ∧
    ((triggerOnBlur s).mouseInteracting = false) := by
  obtain ⟨mi, op, ff⟩ := s
  cases mi <;> cases op <;>
    simp [triggerOnMouseMove, triggerOnMouseLeave, triggerOnFocus, triggerOnBlur,
      onMenuOpen]

/-- C4 witness: at the engaged, closed state the focus event opens the menu
and `mouseInteracting` is left set. -/
theorem open_intent_state_machine_witness :
    (triggerOnFocus ⟨true, false, false⟩).isOpen = true ∧
    (triggerOnFocus ⟨true, false, false⟩).mouseInteracting = true := by
  have h := open_intent_state_machine ⟨true, false, false⟩
  exact ⟨h.2.2.2.2.2.1 rfl, h.2.2.2.2.2.2.2.1⟩

/-- C5: on close the permitted flag is read once by the unmount auto-focus
handler — if it is set the close auto-focus is prevented so focus is not
restored to the owning trigger, otherwise the Focus Scope Guard restores focus
to the trigger that owns this level — and after the close the flag reads false
again (the content's state re-initialises). -/
theorem close_reads_flag_once_then_resets (flag : Bool) :
    ((closeMenuContent flag).focusRestoredToTrigger = !flag) ∧
    (flag = true → (closeMenuContent flag).focusRestoredToTrigger = false) ∧
    (flag = false → (closeMenuContent flag).focusRestoredToTrigger = true) ∧
    (closeMenuContent flag).flagAfterClose = false := by
  cases flag <;>
    simp [closeMenuContent, focusScopeRestore, unmountAutoFocusPrevented]

/-- C6: for every transition sequence, the data-state attribute equals "open"
iff the menu's open boolean is true (and "closed" iff it is false), and a
checkbox/radio item's data-state equals "checked" iff its derived checked
boolean is true ("unchecked" iff false); the attribute is a pure function of
the boolean, so at every prefix of the sequence — every observation point —
the two agree, with no intermediate inconsistent value. -/
theorem data_state_round_trip (isOpen checked : Bool) (v c : String)
    (init : Bool) (events : List Bool) (n : Nat) :
    (getOpenState isOpen = "open" ↔ isOpen = true) ∧
    (getOpenState isOpen = "closed" ↔ isOpen = false) ∧
    (getCheckedState checked = "checked" ↔ checked = true) ∧
    (getCheckedState checked = "unchecked" ↔ checked = false) ∧
    (getOpenState (runOpenSequence init (events.take n)) = "open" ↔
      runOpenSequence init (events.take n) = true) ∧
    (getCheckedState (radioChecked v c) = "checked" ↔ radioChecked v c = true) ∧
    (radioChecked v c = true ↔ v = c) := by
  refine ⟨?_, ?_, ?_, ?_, ?_, ?_, ?_⟩
  · cases isOpen <;> decide
  · cases isOpen <;> decide
  · cases checked <;> decide
  · cases checked <;> decide
  · rcases Bool.eq_false_or_eq_true (runOpenSequence init (events.take n)) with h | h <;>
      rw [h] <;> decide
  · rcases Bool.eq_false_or_eq_true (radioChecked v c) with h | h <;> rw [h] <;> decide
  · simp [radioChecked]

/-- C7: opening a submenu via direct keyboard activation of its trigger
(Enter, Space or ArrowRight) opens it with `focusFirstItem` recorded true
regardless of the pointer-engagement state, so the entry-focus event is not
prevented and the first enabled item becomes the entry focus stop; opening via
pointer engagement (focus while engaged) records `focusFirstItem` false, the
entry-focus event is prevented, and the focus stop stays null. -/
theorem keyboard_open_prefocuses_first_item (s : NestedTriggerState) (key : String)
    (hkey : key = "Enter" ∨ key = " " ∨ key = "ArrowRight")
    (items : List RegisteredItem) :
    ((triggerOnKeyDown key s).isOpen = true) ∧
    ((triggerOnKeyDown key s).focusFirstItem = true) ∧
    (entryFocusStop (nestedEntryFocusPrevented (triggerOnKeyDown key s).focusFirstItem)
        items = (items.filter (fun i => !i.disabled)).head?) ∧
    (s.mouseInteracting = true →
      (triggerOnFocus s).focusFirstItem = false ∧
      nestedEntryFocusPrevented (triggerOnFocus s).focusFirstItem = true ∧
      entryFocusStop (nestedEntryFocusPrevented (triggerOnFocus s).focusFirstItem)
        items = none) := by
  have hk : (key == "Enter" || key == " " || key == "ArrowRight") = true := by
    rcases hkey with h | h | h <;> simp [h]
  refine ⟨?_, ?_, ?_, ?_⟩
  · simp [triggerOnKeyDown, hk, onMenuOpen]
  · simp [triggerOnKeyDown, hk, onMenuOpen]
  · simp [triggerOnKeyDown, hk, onMenuOpen, nestedEntryFocusPrevented, entryFocusStop]
  · intro hm
    refine ⟨?_, ?_, ?_⟩ <;>
      simp [triggerOnFocus, hm, onMenuOpen, nestedEntryFocusPrevented, entryFocusStop]

/-- C7 witness: Enter on an engaged trigger opens the submenu with the first
enabled item as the entry focus stop. -/
theorem keyboard_open_prefocuses_first_item_witness :
    (triggerOnKeyDown "Enter" ⟨true, false, false⟩).isOpen = true ∧
    entryFocusStop
      (nestedEntryFocusPrevented
        (triggerOnKeyDown "Enter" ⟨true, false, false⟩).focusFirstItem)
      appleItems = some ⟨"Apple", false⟩ := by
  have h := keyboard_open_prefocuses_first_item ⟨true, false, false⟩ "Enter"
    (Or.inl rfl) appleItems
  exact ⟨h.1, by rw [h.2.2.1]; decide⟩

/-- C8: a pointer-down whose target lies inside an open submenu's own
originating trigger never closes that submenu: the nested content's guard
prevents the event, so the dismissal layer leaves the open flag unchanged. -/
theorem trigger_pointer_down_never_closes (e : PointerDownOutsideEvent)
    (isOpen : Bool) (h : e.targetInsideTrigger = true) :
    (nestedPointerDownOutside e isOpen).fst = isOpen := by
  simp [nestedPointerDownOutside, nestedTriggerGuard, h,
    dismissAfterPointerDownOutside]

/-- C8 witness: a primary-button pointer-down on the trigger of an open
submenu leaves it open. -/
theorem trigger_pointer_down_never_closes_witness :
    (nestedPointerDownOutside
      ⟨0, false, false, false, false, false, true⟩ true).fst = true :=
  trigger_pointer_down_never_closes
    ⟨0, false, false, false, false, false, true⟩ true rfl

/-- C9 counterexample: under the stated algorithm — per character, buffer
append (reset when the window elapses), scan of enabled items starting after
the current stop with wraparound, case-insensitive prefix match, single-char
retry — typing "ap" within the window from no current stop does NOT return
"Apple": the first character resolves "Apple" and the stop moves there, so the
scan for "ap" starts after "Apple" and finds "Apricot" first. -/
theorem typeahead_ap_counterexample :
    resolvedText appleItems
        (typeaheadRun appleItems [(100, 'a'), (200, 'p')]).snd = some "Apricot" ∧
    resolvedText appleItems
        (typeaheadRun appleItems [(100, 'a'), (200, 'p')]).snd ≠ some "Apple" := by
  constructor
  · decide
  · decide

/-- C9 amended: for the typeahead matcher over enabled items
["Apple","Apricot","Banana"] starting with no current stop, with the focus
stop following each resolution: typing "ap" within the timeout window returns
"Apricot" (the scan starts after the stop left on "Apple" by the first
character); typing "a" then "a" again within the window returns "Apricot"
(repeated single character cycles through same-initial items via the
single-character retry); and typing "b" after the window has elapsed returns
"Banana" (the buffer was reset). -/
theorem typeahead_scenarios :
    resolvedText appleItems
        (typeaheadRun appleItems [(100, 'a'), (200, 'p')]).snd = some "Apricot" ∧
    resolvedText appleItems
        (typeaheadRun appleItems [(100, 'a'), (200, 'a')]).snd = some "Apricot" ∧
    resolvedText appleItems
        (typeaheadRun appleItems [(100, 'a'), (200, 'a'), (1300, 'b')]).snd =
      some "Banana" := by
  refine ⟨?_, ?_, ?_⟩ <;> decide

/-- C10: the document-level item-select listener every mounted Menu registers
makes a non-default-prevented selection close every mounted menu in the
document — the update never consults `ancestorOfItem`, so open menus that are
not ancestors of the selected item are closed too, not only the stack
containing it. -/
theorem select_closes_every_mounted_menu (menus : List MountedMenu) :
    dispatchItemSelect defaultOnSelect menus =
      menus.map (fun m => { m with isOpen := false }) ∧
    (∀ m ∈ dispatchItemSelect defaultOnSelect menus, m.isOpen = false) ∧
    (∀ m ∈ menus, m.ancestorOfItem = false →
      { m with isOpen := false } ∈ dispatchItemSelect defaultOnSelect menus) := by
  have hmap : dispatchItemSelect defaultOnSelect menus =
      menus.map (fun m => { m with isOpen := false }) := by
    simp [dispatchItemSelect, defaultOnSelect, handleMenuClose]
  refine ⟨hmap, ?_, ?_⟩
  · intro m hm
    rw [hmap] at hm
    simp only [List.mem_map] at hm
    obtain ⟨a, _, rfl⟩ := hm
    rfl
  · intro m hm _
    rw [hmap]
    exact List.mem_map.mpr ⟨m, hm, rfl⟩

/-- C5 witness: with the flag set, the close skips restoring focus and the
flag reads false afterwards. -/
theorem close_reads_flag_once_then_resets_witness :
    (closeMenuContent true).focusRestoredToTrigger = false ∧
    (closeMenuContent true).flagAfterClose = false := by
  have h := close_reads_flag_once_then_resets true
  exact ⟨h.2.1 rfl, h.2.2.2⟩

/-- C6 witness: an open menu's attribute is "open", and a radio item equal to
its group value reads "checked". -/
theorem data_state_round_trip_witness :
    (getOpenState true = "open" ↔ true = true) ∧
    (getCheckedState (radioChecked "x" "x") = "checked" ↔
      radioChecked "x" "x" = true) := by
  have h := data_state_round_trip true true "x" "x" true [] 0
  exact ⟨h.1, h.2.2.2.2.2.1⟩

/-- C10 witness: one open non-ancestor menu is closed by the dispatch. -/
theorem select_closes_every_mounted_menu_witness :
    dispatchItemSelect defaultOnSelect [⟨true, false⟩] = [⟨false, false⟩] ∧
    ∀ m ∈ dispatchItemSelect defaultOnSelect [⟨true, false⟩], m.isOpen = false := by
  have h := select_closes_every_mounted_menu [⟨true, false⟩]
  exact ⟨by rw [h.1]; rfl, h.2.1⟩
